import Mathlib

/-!
Verification of the conversation session state machine of
`src/components/ChatInterface.tsx` (a client-side voice-chat session
controller). The data model and the operations are embedded as pure
Lean functions; asynchronous external calls (microphone permission,
session start/end) are represented by an `Except` outcome passed in,
and side effects (toasts, console logs, calls into the agent session
capability) are returned explicitly.
-/

/-- One transcript entry, from the `Message` interface of the source
(role, content, timestamp).  At runtime the role is a string; the
timestamp is a point in time, modelled as a natural number. -/
structure Turn where
  role : String
  content : String
  timestamp : Nat
deriving Repr, DecidableEq

/-- The inner payload of an inbound agent message event
(`message.message` in the source): a role field and a content field,
each possibly absent at runtime. -/
structure MsgPayload where
  role : Option String
  content : Option String
deriving Repr, DecidableEq

/-- An inbound agent message event; the wrapper's `message` field is
accessed with optional chaining (`message.message?.role`) in the
source, so it may itself be absent. -/
structure MessageEvent where
  message : Option MsgPayload
deriving Repr, DecidableEq

/-- JavaScript truthiness of an optional string field: present and not
the empty string. -/
def truthy : Option String → Bool
  | none => false
  | some s => s ≠ ""

/-- `message.message?.role` with optional chaining. -/
def MessageEvent.roleField (e : MessageEvent) : Option String :=
  e.message.bind MsgPayload.role

/-- `message.message?.content` with optional chaining. -/
def MessageEvent.contentField (e : MessageEvent) : Option String :=
  e.message.bind MsgPayload.content

/-- The guard of the `onMessage` handler:
`message.message?.role && message.message?.content`. -/
def msgWellFormed (e : MessageEvent) : Bool :=
  truthy e.roleField && truthy e.contentField

/-- The `Turn` built by the `onMessage` handler from a well-formed
event received at local time `now`: role and content are copied from
the event, the timestamp is `new Date()` at receipt. -/
def mkTurn (now : Nat) (e : MessageEvent) : Turn :=
  { role := e.roleField.getD ""
    content := e.contentField.getD ""
    timestamp := now }

/-- The transcript update of the `onMessage` handler: if the event
carries a truthy role and truthy content, append a new `Turn` with the
local receipt time; otherwise leave the list unchanged
(`setMessages((prev) => [...prev, newMessage])`). -/
def onMessage (now : Nat) (e : MessageEvent) (msgs : List Turn) : List Turn :=
  if msgWellFormed e then msgs ++ [mkTurn now e] else msgs

/-- Processing a whole sequence of timed inbound message events, in
receipt order. -/
def processMessages (evs : List (Nat × MessageEvent)) (msgs : List Turn) : List Turn :=
  evs.foldl (fun acc te => onMessage te.1 te.2 acc) msgs

/-- Session lifecycle status. Modelled from the spec: the status value
itself is owned by the external `useConversation` hook
(`conversation.status`), not by code under `src/`; the spec describes
it as the enum shown here, derived from the most recent lifecycle
event. -/
inductive SessionStatus
  | idle
  | connecting
  | connected
  | ended
  | errored
deriving Repr, DecidableEq

/-- A call to the `toast` notification capability, with the fields the
source passes (`title`, `description`, optional `variant:
"destructive"`). -/
structure Toast where
  title : String
  description : String
  destructive : Bool
deriving Repr, DecidableEq

/-- Toast of the `onConnect` handler. -/
def toastConnected : Toast :=
  { title := "Verbunden"
    description := "Du kannst jetzt mit dem AI-Agenten sprechen"
    destructive := false }

/-- Toast of the `onError` handler. -/
def toastError : Toast :=
  { title := "Fehler"
    description := "Ein Fehler ist aufgetreten. Bitte versuche es erneut."
    destructive := true }

/-- Toast of the success branch of `requestMicrophonePermission`. -/
def toastMicGranted : Toast :=
  { title := "Mikrofonzugriff erlaubt"
    description := "Du kannst jetzt eine Konversation starten"
    destructive := false }

/-- Toast of the failure branch of `requestMicrophonePermission`. -/
def toastMicDenied : Toast :=
  { title := "Mikrofonzugriff verweigert"
    description := "Bitte erlaube den Mikrofonzugriff in deinen Browser-Einstellungen"
    destructive := true }

/-- Toast of the failure branch of `startConversation`. -/
def toastConnFailed : Toast :=
  { title := "Verbindung fehlgeschlagen"
    description := "Konnte nicht mit dem AI-Agenten verbinden"
    destructive := true }

/-- Toast of the success branch of `endConversation`. -/
def toastEnded : Toast :=
  { title := "Konversation beendet"
    description := "Die Verbindung wurde getrennt"
    destructive := false }

/-- A call made into the external agent session capability. -/
inductive ExtCall
  | startSession (agentId : String)
  | endSession
deriving Repr, DecidableEq

/-- The agent id the source passes to `startSession`. -/
def theAgentId : String := "agent_1301k3zm8h2tfcbbt9qnm90ac35t"

/-- The side effects of one operation: toasts shown, console log
lines, and calls made to the external session capability. -/
structure Effects where
  toasts : List Toast
  logs : List String
  calls : List ExtCall
deriving Repr, DecidableEq

/-- No side effects. -/
def Effects.none : Effects := ⟨[], [], []⟩

/-- The state owned by the component: the transcript (`messages`,
`useState<Message[]>([])`) and the permission flag
(`isPermissionGranted`, `useState(false)`), together with the session
status and speaking indicator.  The latter two are Modelled from the
spec: they live in the external `useConversation` hook
(`conversation.status`, `conversation.isSpeaking`), outside `src/`. -/
structure AppState where
  messages : List Turn
  isPermissionGranted : Bool
  status : SessionStatus
  isSpeaking : Bool
deriving Repr, DecidableEq

/-- The initial state: empty transcript, permission not granted
(both `useState` initialisers), session not started. -/
def initialState : AppState :=
  { messages := []
    isPermissionGranted := false
    status := .idle
    isSpeaking := false }

/-- The asynchronous event stream emitted by the agent session
capability, as one tagged sum delivered in order. -/
inductive AgentEvent
  | connect
  | disconnect
  | message (e : MessageEvent)
  | error (details : String)
  | speakingChanged (isSpeaking : Bool)
deriving Repr, DecidableEq

/-- Processing of one inbound agent event.  The transcript update and
the toasts/logs are the `onConnect` / `onDisconnect` / `onMessage` /
`onError` handlers of the source; the `status` and `isSpeaking`
updates are Modelled from the spec: the bookkeeping lives in the
external `useConversation` hook, and the spec describes it as
last-lifecycle-event-wins (`connect` → connected, `disconnect` →
ended, `error` → errored from any state, `speakingChanged` updates the
indicator directly). -/
def handleEvent (now : Nat) (ev : AgentEvent) (s : AppState) : AppState × Effects :=
  match ev with
  | .connect =>
      ({ s with status := .connected },
       ⟨[toastConnected], ["Connected to ElevenLabs"], []⟩)
  | .disconnect =>
      ({ s with status := .ended },
       ⟨[], ["Disconnected from ElevenLabs"], []⟩)
  | .message e =>
      ({ s with messages := onMessage now e s.messages },
       ⟨[], ["Message received:"], []⟩)
  | .error _ =>
      ({ s with status := .errored },
       ⟨[toastError], ["Conversation error:"], []⟩)
  | .speakingChanged b =>
      ({ s with isSpeaking := b }, Effects.none)

/-- `requestMicrophonePermission`: awaits the external capture
permission capability (`navigator.mediaDevices.getUserMedia`), whose
outcome is the `res` argument.  On success it sets the permission flag
and shows the granted toast; the catch branch logs and shows the
distinct denied toast, leaving the flag untouched.  All failure is
caught, so the function is total (never throws to its caller). -/
def requestMicrophonePermission (res : Except String Unit) (s : AppState) :
    AppState × Effects :=
  match res with
  | .ok _ =>
      ({ s with isPermissionGranted := true },
       ⟨[toastMicGranted], [], []⟩)
  | .error _ =>
      (s, ⟨[toastMicDenied], ["Microphone permission denied:"], []⟩)

/-- `startConversation`: calls `conversation.startSession` with the
fixed agent id exactly once; `res` is that call's outcome.  The catch
branch logs and shows the connection-failed toast and changes no local
state.  The `connecting` status on success is Modelled from the spec
(the hook transitions idle → connecting on a successful start
request). -/
def startConversation (res : Except String Unit) (s : AppState) :
    AppState × Effects :=
  match res with
  | .ok _ =>
      ({ s with status := .connecting },
       ⟨[], [], [.startSession theAgentId]⟩)
  | .error _ =>
      (s, ⟨[toastConnFailed], ["Failed to start conversation:"],
           [.startSession theAgentId]⟩)

/-- `endConversation`: calls `conversation.endSession` exactly once;
`res` is that call's outcome.  On success the ended toast is shown; the
catch branch only logs — no toast.  The transcript is untouched in both
branches, and the local state treats the session as ended either way
(the `ended` status is Modelled from the spec: the hook's teardown). -/
def endConversation (res : Except String Unit) (s : AppState) :
    AppState × Effects :=
  match res with
  | .ok _ =>
      ({ s with status := .ended },
       ⟨[toastEnded], [], [.endSession]⟩)
  | .error _ =>
      ({ s with status := .ended },
       ⟨[], ["Failed to end conversation:"], [.endSession]⟩)

/-- Whether the UI offers the permission request (the source renders
the request button exactly when `!isPermissionGranted`). -/
def requestOffered (s : AppState) : Bool :=
  !s.isPermissionGranted

/-- One operation of the core: an inbound agent event (with its local
receipt time) or one of the three user-initiated operations (with the
outcome of the awaited external call). -/
inductive Op
  | event (now : Nat) (ev : AgentEvent)
  | requestPermission (res : Except String Unit)
  | start (res : Except String Unit)
  | endConv (res : Except String Unit)
deriving Repr

/-- Applying one operation to the state. -/
def applyOp (op : Op) (s : AppState) : AppState × Effects :=
  match op with
  | .event now ev => handleEvent now ev s
  | .requestPermission res => requestMicrophonePermission res s
  | .start res => startConversation res s
  | .endConv res => endConversation res s

/-- Running a sequence of operations, discarding effects. -/
def runOps (ops : List Op) (s : AppState) : AppState :=
  ops.foldl (fun st op => (applyOp op st).1) s

/-- Whether an `Except` outcome is a success. -/
def okOutcome (res : Except String Unit) : Bool :=
  match res with
  | .ok _ => true
  | .error _ => false

/-- Modelled from the spec: the spec's PermissionState enum
{unrequested, granted, denied}.  The code under `src/` keeps only the
boolean `isPermissionGranted`; this richer state is the spec's view of
the Permission Gate, used to compare spec and code behaviour. -/
inductive PermissionState
  | unrequested
  | granted
  | denied
deriving Repr, DecidableEq

/-- Modelled from the spec: `requestPermission()` of the spec's
Permission Gate.  Success transitions to granted with the granted
notification; failure transitions to denied with the distinct failure
notification; it never throws (it is a total function). -/
def requestPermissionSpec (res : Except String Unit) (_p : PermissionState) :
    PermissionState × List Toast :=
  match res with
  | .ok _ => (.granted, [toastMicGranted])
  | .error _ => (.denied, [toastMicDenied])

/-- The abstraction from the spec's PermissionState to the boolean
flag the code stores: only `granted` maps to `true`. -/
def permAbs : PermissionState → Bool
  | .granted => true
  | .unrequested => false
  | .denied => false

/-- Unfolding step of `processMessages`. -/
theorem processMessages_cons (te : Nat × MessageEvent) (evs : List (Nat × MessageEvent))
    (msgs : List Turn) :
    processMessages (te :: evs) msgs = processMessages evs (onMessage te.1 te.2 msgs) := rfl

/-- The transcript produced by a sequence of message events is the
initial transcript followed by one `Turn` per well-formed event, in
order. -/
theorem processMessages_eq (evs : List (Nat × MessageEvent)) :
    ∀ msgs, processMessages evs msgs =
      msgs ++ (evs.filter fun te => msgWellFormed te.2).map (fun te => mkTurn te.1 te.2) := by
  induction evs with
  | nil => intro msgs; simp [processMessages]
  | cons hd tl ih =>
    intro msgs
    rw [processMessages_cons, ih]
    by_cases h : msgWellFormed hd.2
    · simp [onMessage, h, List.filter_cons]
    · simp [onMessage, h, List.filter_cons]

/-- C1: for every sequence of inbound agent message events, the final
transcript is exactly the subsequence of events carrying both a
(truthy) role and non-empty content, as Turns in receipt order, all
other events being dropped; in particular an event with role present
but empty content leaves the transcript unchanged and a transcript of
length 0 stays at length 0. -/
theorem transcript_is_wellformed_subsequence (evs : List (Nat × MessageEvent)) :
    (processMessages evs [] =
      (evs.filter fun te => msgWellFormed te.2).map (fun te => mkTurn te.1 te.2))
    ∧ (∀ now msgs, onMessage now ⟨some ⟨some "user", some ""⟩⟩ msgs = msgs)
    ∧ processMessages [(0, ⟨some ⟨some "user", some ""⟩⟩)] [] = [] := by
  refine ⟨by simpa using processMessages_eq evs [], ?_, by decide⟩
  intro now msgs
  simp [onMessage, msgWellFormed, truthy, MessageEvent.contentField, MessageEvent.roleField]

/-- C9: the `onMessage` handler does not validate the role against the
enum {user, assistant}: an event whose role is the truthy string
"system" and whose content is non-empty is still appended, carrying
that role verbatim. -/
theorem role_not_validated_against_enum :
    onMessage 5 ⟨some ⟨some "system", some "hallo"⟩⟩ [] =
      [{ role := "system", content := "hallo", timestamp := 5 }] := by
  decide

/-- C2: `requestMicrophonePermission` never throws (it is a total
function of the outcome); at the spec level, success yields granted
with exactly the one granted toast, failure yields denied with exactly
the one distinct failure toast, and from granted the state never
becomes unrequested; the code's boolean flag refines the spec machine
under `permAbs` whenever the request is made from a non-granted state
(the only states from which the UI offers it); and under every
operation of the core the code's granted flag is never reset. -/
theorem request_permission_contract :
    (∀ res p, requestPermissionSpec res p =
        if okOutcome res then (.granted, [toastMicGranted]) else (.denied, [toastMicDenied]))
    ∧ toastMicGranted ≠ toastMicDenied
    ∧ (∀ res p, p = PermissionState.granted →
        (requestPermissionSpec res p).1 ≠ PermissionState.unrequested)
    ∧ (∀ res s p, p ≠ PermissionState.granted → permAbs p = s.isPermissionGranted →
        (requestMicrophonePermission res s).1.isPermissionGranted
            = permAbs (requestPermissionSpec res p).1
          ∧ (requestMicrophonePermission res s).2.toasts = (requestPermissionSpec res p).2
          ∧ (requestMicrophonePermission res s).1.messages = s.messages)
    ∧ (∀ op s, s.isPermissionGranted = true → (applyOp op s).1.isPermissionGranted = true) := by
  refine ⟨?_, by decide, ?_, ?_, ?_⟩
  · intro res p; cases res <;> rfl
  · intro res p _; cases res <;> simp [requestPermissionSpec]
  · intro res s p hp habs
    cases res with
    | ok _ => exact ⟨rfl, rfl, rfl⟩
    | error e =>
        refine ⟨?_, rfl, rfl⟩
        have hfalse : permAbs p = false := by
          cases p with
          | granted => exact absurd rfl hp
          | unrequested => rfl
          | denied => rfl
        show s.isPermissionGranted = false
        rw [← habs]
        exact hfalse
  · intro op s h
    cases op with
    | event now ev => cases ev <;> simp [applyOp, handleEvent, h]
    | requestPermission res => cases res <;> simp [applyOp, requestMicrophonePermission, h]
    | start res => cases res <;> simp [applyOp, startConversation, h]
    | endConv res => cases res <;> simp [applyOp, endConversation, h]

/-- Witness for C2 at concrete inputs: a failed request from the
initial (unrequested) state, a successful spec transition from
granted, and one operation applied to a state with the flag set. -/
theorem request_permission_contract_witness :
    ((requestPermissionSpec (.ok ()) PermissionState.granted).1 ≠ PermissionState.unrequested)
    ∧ ((requestMicrophonePermission (.error "x") initialState).1.isPermissionGranted
        = permAbs (requestPermissionSpec (.error "x") PermissionState.unrequested).1)
    ∧ ((applyOp (.event 0 .connect)
          { initialState with isPermissionGranted := true }).1.isPermissionGranted = true) :=
  ⟨request_permission_contract.2.2.1 (.ok ()) PermissionState.granted rfl,
   (request_permission_contract.2.2.2.1 (.error "x") initialState
      PermissionState.unrequested (by decide) rfl).1,
   request_permission_contract.2.2.2.2 (.event 0 .connect)
      { initialState with isPermissionGranted := true } rfl⟩

/-- C3: when the underlying `startSession` call fails, the whole state
is unchanged (transcript, permission flag and status — in particular
from idle the controller never reaches connecting or connected),
exactly one distinct connection-failed toast is shown, and
`startSession` was called exactly once (no automatic retry). -/
theorem start_failure_contract (e : String) (s : AppState) :
    ((startConversation (.error e) s).1 = s)
    ∧ ((startConversation (.error e) s).2.toasts = [toastConnFailed])
    ∧ ((startConversation (.error e) s).2.calls.count (ExtCall.startSession theAgentId) = 1)
    ∧ (s.status = SessionStatus.idle →
        (startConversation (.error e) s).1.status ≠ SessionStatus.connecting
        ∧ (startConversation (.error e) s).1.status ≠ SessionStatus.connected)
    ∧ ((startConversation (.error e) s).1.messages = s.messages)
    ∧ ((startConversation (.error e) s).1.isPermissionGranted = s.isPermissionGranted) := by
  refine ⟨rfl, rfl, by simp [startConversation], ?_, rfl, rfl⟩
  intro hidle
  constructor
  · show s.status ≠ SessionStatus.connecting
    rw [hidle]; simp
  · show s.status ≠ SessionStatus.connected
    rw [hidle]; simp

/-- Witness for C3: a failed start from the initial idle state. -/
theorem start_failure_contract_witness :
    initialState.status = SessionStatus.idle
    ∧ (startConversation (.error "boom") initialState).1.status ≠ SessionStatus.connecting
    ∧ (startConversation (.error "boom") initialState).1.status ≠ SessionStatus.connected :=
  ⟨rfl,
   (start_failure_contract "boom" initialState).2.2.2.1 rfl |>.1,
   (start_failure_contract "boom" initialState).2.2.2.1 rfl |>.2⟩

/-- C4: `endConversation` never throws (total in the outcome), never
mutates the transcript (so a call when the session is already ended
leaves it untouched), treats the session as ended in both branches, and
on success shows the teardown toast while on failure it only logs and
shows no toast. -/
theorem end_session_contract (res : Except String Unit) (s : AppState) :
    ((endConversation res s).1.messages = s.messages)
    ∧ ((endConversation res s).1.isPermissionGranted = s.isPermissionGranted)
    ∧ ((endConversation res s).1.status = SessionStatus.ended)
    ∧ (okOutcome res = true → (endConversation res s).2.toasts = [toastEnded])
    ∧ (okOutcome res = false →
        (endConversation res s).2.toasts = []
        ∧ (endConversation res s).2.logs = ["Failed to end conversation:"]) := by
  cases res with
  | ok _ => exact ⟨rfl, rfl, rfl, fun _ => rfl, fun h => by simp [okOutcome] at h⟩
  | error e => exact ⟨rfl, rfl, rfl, fun h => by simp [okOutcome] at h, fun _ => ⟨rfl, rfl⟩⟩

/-- Witness for C4: a successful and a failed teardown from the
initial state. -/
theorem end_session_contract_witness :
    ((endConversation (.ok ()) initialState).2.toasts = [toastEnded])
    ∧ ((endConversation (.error "x") initialState).2.toasts = [])
    ∧ ((endConversation (.error "x") initialState).1.messages = initialState.messages) :=
  ⟨(end_session_contract (.ok ()) initialState).2.2.2.1 rfl,
   ((end_session_contract (.error "x") initialState).2.2.2.2 rfl).1,
   (end_session_contract (.error "x") initialState).1⟩

/-- C5: an error event is never terminal: it only shows the failure
toast (leaving transcript, permission flag and speaking indicator
untouched) and does not set the status to ended; a subsequent connect
event yields status connected, after which the speaking indicator is
updated normally by speakingChanged events; and connect/disconnect
events are processed identically from every state, so the error
suppresses no later lifecycle event. -/
theorem error_event_non_terminal (s : AppState) (d : String) (n1 n2 n3 : Nat) (b : Bool) :
    ((handleEvent n1 (.error d) s).2.toasts = [toastError])
    ∧ ((handleEvent n1 (.error d) s).1.messages = s.messages)
    ∧ ((handleEvent n1 (.error d) s).1.isPermissionGranted = s.isPermissionGranted)
    ∧ ((handleEvent n1 (.error d) s).1.isSpeaking = s.isSpeaking)
    ∧ ((handleEvent n1 (.error d) s).1.status ≠ SessionStatus.ended)
    ∧ ((handleEvent n2 .connect (handleEvent n1 (.error d) s).1).1.status
        = SessionStatus.connected)
    ∧ ((handleEvent n3 (.speakingChanged b)
          (handleEvent n2 .connect (handleEvent n1 (.error d) s).1).1).1.isSpeaking = b)
    ∧ (∀ s' now, (handleEvent now .connect s').1.status = SessionStatus.connected
        ∧ (handleEvent now .disconnect s').1.status = SessionStatus.ended) := by
  refine ⟨rfl, rfl, rfl, rfl, by simp [handleEvent], rfl, rfl, fun s' now => ⟨rfl, rfl⟩⟩

/-- C6: message ingestion is not gated by the session status: the
transcript update of a message event depends only on the previous
transcript and the event itself (never on status), and any well-formed
message is appended even when the status is still idle or connecting,
i.e. before the connect event has been processed. -/
theorem message_ingestion_not_gated (now : Nat) (m : MessageEvent) (s t : AppState) :
    (s.messages = t.messages →
      (handleEvent now (.message m) s).1.messages = (handleEvent now (.message m) t).1.messages)
    ∧ (msgWellFormed m = true →
      (handleEvent now (.message m) s).1.messages = s.messages ++ [mkTurn now m]) := by
  constructor
  · intro h
    show onMessage now m s.messages = onMessage now m t.messages
    rw [h]
  · intro h
    show onMessage now m s.messages = s.messages ++ [mkTurn now m]
    simp [onMessage, h]

/-- Witness for C6: a well-formed user message processed in the idle
initial state and in a connected state with the same transcript. -/
theorem message_ingestion_not_gated_witness :
    ((handleEvent 3 (.message ⟨some ⟨some "user", some "Hallo"⟩⟩) initialState).1.messages
      = (handleEvent 3 (.message ⟨some ⟨some "user", some "Hallo"⟩⟩)
          { initialState with status := .connected }).1.messages)
    ∧ ((handleEvent 3 (.message ⟨some ⟨some "user", some "Hallo"⟩⟩) initialState).1.messages
      = initialState.messages ++ [mkTurn 3 ⟨some ⟨some "user", some "Hallo"⟩⟩]) :=
  ⟨(message_ingestion_not_gated 3 ⟨some ⟨some "user", some "Hallo"⟩⟩ initialState
      { initialState with status := .connected }).1 rfl,
   (message_ingestion_not_gated 3 ⟨some ⟨some "user", some "Hallo"⟩⟩ initialState
      { initialState with status := .connected }).2 (by decide)⟩

/-- Every single operation of the core leaves the previous transcript
as an unchanged initial segment, at most appending new Turns. -/
theorem applyOp_messages_extend (op : Op) (s : AppState) :
    ∃ t, (applyOp op s).1.messages = s.messages ++ t := by
  cases op with
  | event now ev =>
      cases ev with
      | message e =>
          by_cases h : msgWellFormed e
          · exact ⟨[mkTurn now e], by simp [applyOp, handleEvent, onMessage, h]⟩
          · exact ⟨[], by simp [applyOp, handleEvent, onMessage, h]⟩
      | connect => exact ⟨[], by simp [applyOp, handleEvent]⟩
      | disconnect => exact ⟨[], by simp [applyOp, handleEvent]⟩
      | error d => exact ⟨[], by simp [applyOp, handleEvent]⟩
      | speakingChanged b => exact ⟨[], by simp [applyOp, handleEvent]⟩
  | requestPermission res =>
      cases res <;> exact ⟨[], by simp [applyOp, requestMicrophonePermission]⟩
  | start res =>
      cases res <;> exact ⟨[], by simp [applyOp, startConversation]⟩
  | endConv res =>
      cases res <;> exact ⟨[], by simp [applyOp, endConversation]⟩

/-- Unfolding step of `runOps`. -/
theorem runOps_cons (op : Op) (ops : List Op) (s : AppState) :
    runOps (op :: ops) s = runOps ops (applyOp op s).1 := rfl

/-- C7: the transcript is append-only across every sequence of
operations of the core — events (including error and disconnect),
permission requests, session starts (including restarts after ended or
errored) and session ends: the previous transcript always remains a
prefix, never removed, reordered or deduplicated, so it accumulates
across reconnects. -/
theorem transcript_append_only (ops : List Op) (s : AppState) :
    ∃ t, (runOps ops s).messages = s.messages ++ t := by
  induction ops generalizing s with
  | nil => exact ⟨[], by simp [runOps]⟩
  | cons op rest ih =>
      obtain ⟨t1, h1⟩ := applyOp_messages_extend op s
      obtain ⟨t2, h2⟩ := ih (applyOp op s).1
      refine ⟨t1 ++ t2, ?_⟩
      rw [runOps_cons, h2, h1, List.append_assoc]

/-- C8: every appended Turn's timestamp is the local receipt time of
its message event — the transcript's timestamp column is exactly the
receipt-time column of the well-formed events (the agent payload
carries no time that could be used instead) — and whenever the local
clock is non-decreasing over the event sequence, the transcript's
timestamps are non-decreasing in insertion order. -/
theorem timestamps_local_and_monotone (evs : List (Nat × MessageEvent))
    (h : (evs.map Prod.fst).Pairwise (· ≤ ·)) :
    ((processMessages evs []).map Turn.timestamp
        = (evs.filter fun te => msgWellFormed te.2).map Prod.fst)
    ∧ ((processMessages evs []).map Turn.timestamp).Pairwise (· ≤ ·) := by
  have h0 := processMessages_eq evs []
  rw [List.nil_append] at h0
  have hcomp : Turn.timestamp ∘ (fun te : Nat × MessageEvent => mkTurn te.1 te.2)
      = Prod.fst := funext fun te => rfl
  have heq : (processMessages evs []).map Turn.timestamp
      = (evs.filter fun te => msgWellFormed te.2).map Prod.fst := by
    rw [h0, List.map_map, hcomp]
  refine ⟨heq, ?_⟩
  rw [heq]
  exact List.pairwise_map.mpr ((List.pairwise_map.mp h).filter _)

/-- Witness for C8: two well-formed events received at times 1 and 2. -/
theorem timestamps_local_and_monotone_witness :
    (([(1, MessageEvent.mk (some ⟨some "user", some "Hallo"⟩)),
       (2, MessageEvent.mk (some ⟨some "assistant", some "Hi"⟩))].map Prod.fst).Pairwise
        (· ≤ ·))
    ∧ ((processMessages
          [(1, MessageEvent.mk (some ⟨some "user", some "Hallo"⟩)),
           (2, MessageEvent.mk (some ⟨some "assistant", some "Hi"⟩))] []).map
            Turn.timestamp).Pairwise (· ≤ ·) :=
  ⟨by decide,
   (timestamps_local_and_monotone
      [(1, MessageEvent.mk (some ⟨some "user", some "Hallo"⟩)),
       (2, MessageEvent.mk (some ⟨some "assistant", some "Hi"⟩))] (by decide)).2⟩

/-- C10: the failure branch of `requestMicrophonePermission` leaves
the state completely unchanged — the code stores only the boolean
`isPermissionGranted`, so after a failure from the initial state the
state equals the initial (unrequested) state, no distinct denied value
is stored, and the permission request is offered by the UI exactly as
before the attempt. -/
theorem permission_failure_leaves_state (e : String) (s : AppState) :
    ((requestMicrophonePermission (.error e) s).1 = s)
    ∧ ((requestMicrophonePermission (.error e) initialState).1 = initialState)
    ∧ (requestOffered (requestMicrophonePermission (.error e) initialState).1
        = requestOffered initialState)
    ∧ (requestOffered (requestMicrophonePermission (.error e) initialState).1 = true) :=
  ⟨rfl, rfl, rfl, rfl⟩
